import Mathlib

/-!
Verification of the recipe costing engine
(`backend/app/domain/costing_service.py`).

Numbers are modelled as rationals (exact arithmetic in place of Python
floats), identifiers as naturals, and optional fields as `Option`.  The
database session is modelled as an in-memory `Store`; SQL `order_by`
retrieval is modelled by keeping each table's list already in its stored
display order (the spec guarantees a stable caller-defined order).  The
mutable cycle-guard set `self._costing_stack` is modelled as an explicit
`List ℕ` threaded through every call and returned alongside the result.
-/

namespace Costing

/-- Model of `app/models/recipe.py` `Recipe` (fields the costing engine touches). -/
structure Recipe where
  id : ℕ
  name : String
  yield_quantity : ℚ
  yield_unit : String
  cost_price : Option ℚ
  updated_at : ℕ
deriving Repr, DecidableEq

/-- Model of `app/models/ingredient.py` `Ingredient` (fields the costing engine touches). -/
structure Ingredient where
  id : ℕ
  name : String
deriving Repr, DecidableEq

/-- Model of `app/models/recipe_ingredient.py` `RecipeIngredient`. -/
structure RecipeIngredient where
  recipe_id : ℕ
  ingredient_id : ℕ
  quantity : ℚ
  unit : String
  base_unit : Option String
  unit_price : Option ℚ
deriving Repr, DecidableEq

/-- Modelled from the spec: `app/models/recipe_recipe.py` is not under
`src/`; §3 of the spec describes the sub-recipe link as a directed edge
with quantity, a unit string, and a link identifier, ordered by a
position field.  Field names follow the accesses in
`costing_service.py` (`rr.parent_recipe_id`, `rr.child_recipe_id`,
`rr.quantity`, `rr.unit`, `rr.id`, `rr.position`); `unit` is the string
value of the unit enum. -/
structure RecipeRecipe where
  id : ℕ
  parent_recipe_id : ℕ
  child_recipe_id : ℕ
  quantity : ℚ
  unit : String
  position : ℕ
deriving Repr, DecidableEq

/-- Modelled from the spec: `app/models/costing.py` is not under `src/`;
§3 describes the breakdown record, and the constructor call in
`costing_service.py` lines 132–143 fixes the field names. -/
structure CostBreakdownItem where
  ingredient_id : ℕ
  ingredient_name : String
  quantity : ℚ
  unit : String
  quantity_in_base_unit : ℚ
  base_unit : Option String
  cost_per_base_unit : Option ℚ
  line_cost : Option ℚ
deriving Repr, DecidableEq

/-- Modelled from the spec: `app/models/costing.py` is not under `src/`;
§3 describes the sub-recipe cost record, and the constructor call in
`costing_service.py` lines 174–185 fixes the field names. -/
structure SubRecipeCostItem where
  link_id : ℕ
  recipe_id : ℕ
  recipe_name : String
  quantity : ℚ
  unit : String
  sub_recipe_batch_cost : Option ℚ
  sub_recipe_portion_cost : Option ℚ
  line_cost : Option ℚ
deriving Repr, DecidableEq

/-- Modelled from the spec: `app/models/costing.py` is not under `src/`;
§3 describes the aggregate result, and the constructor call in
`costing_service.py` lines 195–207 fixes the field names. -/
structure CostingResult where
  recipe_id : ℕ
  recipe_name : String
  yield_quantity : ℚ
  yield_unit : String
  breakdown : List CostBreakdownItem
  sub_recipe_breakdown : List SubRecipeCostItem
  ingredient_cost : Option ℚ
  sub_recipe_cost : Option ℚ
  total_batch_cost : Option ℚ
  cost_per_portion : Option ℚ
  missing_costs : List String
deriving Repr, DecidableEq

/-- The database session the service reads through, plus the unit
conversion function.  `recipe_ingredients` and `sub_links` are kept in
their stored (`sort_order` / `position`) order, so the `order_by`
retrieval is a filter.  `convert` is modelled from the spec:
`app/utils/unit_conversion.py` is not under `src/`; §6 only gives the
contract `convertToBaseUnit(quantity, fromUnit, toUnit) → quantity |
failure` (case-sensitive on units, failure distinguishable from a
legitimate zero result), so it is an arbitrary function of that shape. -/
structure Store where
  recipes : List Recipe
  ingredients : List Ingredient
  recipe_ingredients : List RecipeIngredient
  sub_links : List RecipeRecipe
  convert : ℚ → String → Option String → Option ℚ

/-- Model of `self.session.get(Recipe, recipe_id)`. -/
def getRecipe (s : Store) (id : ℕ) : Option Recipe :=
  s.recipes.find? (fun r => r.id = id)

/-- Model of `self.session.get(Ingredient, ingredient_id)`. -/
def getIngredient (s : Store) (id : ℕ) : Option Ingredient :=
  s.ingredients.find? (fun i => i.id = id)

/-- Model of `RecipeService.get_recipe_ingredients`: the recipe's lines in
`sort_order` order. -/
def getRecipeIngredients (s : Store) (recipe_id : ℕ) : List RecipeIngredient :=
  s.recipe_ingredients.filter (fun ri => ri.recipe_id = recipe_id)

/-- Model of `CostingService._get_sub_recipes`: the recipe's child links in
`position` order. -/
def getSubRecipes (s : Store) (recipe_id : ℕ) : List RecipeRecipe :=
  s.sub_links.filter (fun rr => rr.parent_recipe_id = recipe_id)

/-- Model of `CostingService._calculate_sub_recipe_line_cost` (lines 36–75).
Both child costs must be present (line 51); the unit dispatch follows
lines 57–75, where the transient `batch_fraction` of line 67 is
immediately overwritten by line 70, so the net `g`/`ml` rule is
`quantity / yield_quantity * child_batch_cost`. -/
def calculateSubRecipeLineCost (sub : RecipeRecipe)
    (child_batch_cost child_portion_cost : Option ℚ)
    (child_recipe : Recipe) : Option ℚ :=
  match child_batch_cost, child_portion_cost with
  | some bc, some pc =>
    let unit := sub.unit
    let quantity := sub.quantity
    if unit = "portion" then
      some (quantity * pc)
    else if unit = "batch" then
      some (quantity * bc)
    else if unit = "g" ∨ unit = "ml" then
      if 0 < child_recipe.yield_quantity then
        some (quantity / child_recipe.yield_quantity * bc)
      else
        none
    else
      some (quantity * pc)
  | _, _ => none

/-- The breakdown record built for one ingredient line
(`costing_service.py` lines 117–143).  `quantity_in_base or ri.quantity`
falls back to the original quantity both when conversion failed (`None`)
and when the converted value is `0` (Python falsiness of `0.0`). -/
def mkBreakdownItem (s : Store) (ri : RecipeIngredient) (ing : Ingredient) :
    CostBreakdownItem :=
  let quantity_in_base := s.convert ri.quantity ri.unit ri.base_unit
  let line_cost : Option ℚ :=
    match ri.unit_price, quantity_in_base with
    | some p, some q => some (q * p)
    | _, _ => none
  { ingredient_id := ing.id
    ingredient_name := ing.name
    quantity := ri.quantity
    unit := ri.unit
    quantity_in_base_unit :=
      match quantity_in_base with
      | some v => if v = 0 then ri.quantity else v
      | none => ri.quantity
    base_unit := ri.base_unit
    cost_per_base_unit := ri.unit_price
    line_cost := line_cost }

/-- The ingredient loop (`costing_service.py` lines 112–143): returns
the breakdown list, the ingredient subtotal, and the missing-cost names,
in iteration order.  A line whose ingredient record does not exist is
skipped entirely (lines 113–115). -/
def processIngredients (s : Store) :
    List RecipeIngredient → List CostBreakdownItem × ℚ × List String
  | [] => ([], 0, [])
  | ri :: rest =>
    match getIngredient s ri.ingredient_id with
    | none => processIngredients s rest
    | some ing =>
      let item := mkBreakdownItem s ri ing
      let tail := processIngredients s rest
      match item.line_cost with
      | some lc => (item :: tail.1, lc + tail.2.1, tail.2.2)
      | none => (item :: tail.1, tail.2.1, ing.name :: tail.2.2)

/-- The sub-recipe loop (`costing_service.py` lines 150–185), abstracted
over the recursive call `rec` (the service at one greater depth).  The
guard stack is threaded through the recursive calls exactly as the
mutable `self._costing_stack` is in Python.  Returns the sub-recipe
breakdown, the sub-recipe subtotal, the missing-cost names, and the
stack after the loop. -/
def processLinks (s : Store) (rec : ℕ → List ℕ → Option CostingResult × List ℕ) :
    List RecipeRecipe → List ℕ →
      List SubRecipeCostItem × ℚ × List String × List ℕ
  | [], stack => ([], 0, [], stack)
  | rr :: rest, stack =>
    match getRecipe s rr.child_recipe_id with
    | none =>
      let tail := processLinks s rec rest stack
      (tail.1, tail.2.1,
        ("[Sub-recipe " ++ toString rr.child_recipe_id ++ "]") :: tail.2.2.1,
        tail.2.2.2)
    | some child =>
      let childCall := rec rr.child_recipe_id stack
      let child_batch_cost := childCall.1.bind CostingResult.total_batch_cost
      let child_portion_cost := childCall.1.bind CostingResult.cost_per_portion
      let line_cost :=
        calculateSubRecipeLineCost rr child_batch_cost child_portion_cost child
      let item : SubRecipeCostItem :=
        { link_id := rr.id
          recipe_id := child.id
          recipe_name := child.name
          quantity := rr.quantity
          unit := rr.unit
          sub_recipe_batch_cost := child_batch_cost
          sub_recipe_portion_cost := child_portion_cost
          line_cost := line_cost }
      let tail := processLinks s rec rest childCall.2
      match line_cost with
      | some lc => (item :: tail.1, lc + tail.2.1, tail.2.2.1, tail.2.2.2)
      | none =>
        (item :: tail.1, tail.2.1,
          ("[Sub-recipe: " ++ child.name ++ "]") :: tail.2.2.1, tail.2.2.2)

/-- Model of `CostingService.calculate_recipe_cost` (lines 77–210), indexed by
remaining recursion budget `fuel = _max_depth - _depth` (the two
parameters only ever occur through this difference: the guard at line 92
is `fuel = 0`, and the recursive call at line 157 passes `_depth + 1`,
i.e. `fuel - 1`).  Returns the result together with the guard stack
after the call; the `finally` of lines 208–210 is the final `erase`. -/
def computeAux (s : Store) : ℕ → ℕ → List ℕ → Option CostingResult × List ℕ
  | 0, _, stack => (none, stack)
  | fuel + 1, recipe_id, stack =>
    if recipe_id ∈ stack then
      (none, stack)
    else
      let stack1 := recipe_id :: stack
      match getRecipe s recipe_id with
      | none => (none, stack1.erase recipe_id)
      | some recipe =>
        let ingPart := processIngredients s (getRecipeIngredients s recipe_id)
        let linkPart :=
          processLinks s (computeAux s fuel) (getSubRecipes s recipe_id) stack1
        let ingredient_cost := ingPart.2.1
        let sub_recipe_cost := linkPart.2.1
        let missing_costs := ingPart.2.2 ++ linkPart.2.2.1
        let total_cost := ingredient_cost + sub_recipe_cost
        let cost_per_portion : Option ℚ :=
          if 0 < total_cost ∧ 0 < recipe.yield_quantity then
            some (total_cost / recipe.yield_quantity)
          else
            none
        (some
          { recipe_id := recipe.id
            recipe_name := recipe.name
            yield_quantity := recipe.yield_quantity
            yield_unit := recipe.yield_unit
            breakdown := ingPart.1
            sub_recipe_breakdown := linkPart.1
            ingredient_cost :=
              if 0 < ingredient_cost then some ingredient_cost else none
            sub_recipe_cost :=
              if 0 < sub_recipe_cost then some sub_recipe_cost else none
            total_batch_cost :=
              if missing_costs = [] then some total_cost else none
            cost_per_portion := cost_per_portion
            missing_costs := missing_costs },
          linkPart.2.2.2.erase recipe_id)

/-- Wrapper for `calculate_recipe_cost(recipe_id, _depth, _max_depth)` with the
guard set state made explicit. -/
def calculate_recipe_cost (s : Store) (recipe_id : ℕ)
    (depth max_depth : ℕ) (stack : List ℕ) :
    Option CostingResult × List ℕ :=
  computeAux s (max_depth - depth) recipe_id stack

/-- Replacing a recipe row: `session.add` + `commit` for an entity whose
primary key already exists. -/
def updateRecipe (s : Store) (r : Recipe) : Store :=
  { s with recipes := s.recipes.map (fun x => if x.id = r.id then r else x) }

/-- Model of `CostingService.persist_cost_snapshot` (lines 212–231).  `now` is
`datetime.utcnow()`.  `if not costing` is the `None` check: a
`CostingResult` instance is always truthy. -/
def persist_cost_snapshot (s : Store) (recipe_id : ℕ) (now : ℕ) :
    Option Recipe × Store :=
  match (calculate_recipe_cost s recipe_id 0 20 []).1 with
  | none => (none, s)
  | some costing =>
    match getRecipe s recipe_id with
    | none => (none, s)
    | some recipe =>
      let recipe' :=
        { recipe with
            cost_price := costing.cost_per_portion
            updated_at := now }
      (some recipe', updateRecipe s recipe')

/-- The sub-recipe loop leaves the guard stack exactly as it found it,
provided each recursive call does. -/
theorem processLinks_stack (s : Store)
    (rec : ℕ → List ℕ → Option CostingResult × List ℕ)
    (hrec : ∀ id st, (rec id st).2 = st) :
    ∀ (links : List RecipeRecipe) (stack : List ℕ),
      (processLinks s rec links stack).2.2.2 = stack := by
  intro links
  induction links with
  | nil => intro stack; rfl
  | cons rr rest ih =>
    intro stack
    simp only [processLinks]
    cases h : getRecipe s rr.child_recipe_id with
    | none => simpa using ih stack
    | some child =>
      simp only [hrec]
      cases hlc : calculateSubRecipeLineCost rr
          ((rec rr.child_recipe_id stack).1.bind CostingResult.total_batch_cost)
          ((rec rr.child_recipe_id stack).1.bind CostingResult.cost_per_portion)
          child <;>
        simpa [hlc, hrec] using ih stack

/-- Every exit path of `calculate_recipe_cost` restores the guard stack
to its value at entry (the `finally` of lines 208–210 together with the
early guard returns of lines 92–97). -/
theorem computeAux_stack (s : Store) :
    ∀ (fuel id : ℕ) (stack : List ℕ), (computeAux s fuel id stack).2 = stack := by
  intro fuel
  induction fuel with
  | zero => intro id stack; rfl
  | succ fuel ih =>
    intro id stack
    simp only [computeAux]
    by_cases hmem : id ∈ stack
    · simp [hmem]
    · have hpl := processLinks_stack s (computeAux s fuel) (fun i st => ih i st)
        (getSubRecipes s id) (id :: stack)
      cases h : getRecipe s id <;>
        simp [hmem, h, hpl, List.erase_cons_head]

/-- Shape of every successful result: there is a running total such
that `total_batch_cost` is that total gated on `missing_costs` being
empty, and `cost_per_portion` is `total / yield` gated on the total and
the yield both being strictly positive (lines 190–207). -/
theorem computeAux_some_spec {s : Store} {fuel id : ℕ} {stack st : List ℕ}
    {r : CostingResult}
    (h : computeAux s fuel id stack = (some r, st)) :
    ∃ total : ℚ,
      r.total_batch_cost = (if r.missing_costs = [] then some total else none) ∧
      r.cost_per_portion =
        (if 0 < total ∧ 0 < r.yield_quantity then
          some (total / r.yield_quantity) else none) := by
  match fuel with
  | 0 => simp [computeAux] at h
  | fuel + 1 =>
    simp only [computeAux] at h
    by_cases hmem : id ∈ stack
    · simp [hmem] at h
    · simp only [hmem, if_neg, ite_false] at h
      cases hget : getRecipe s id with
      | none => simp [hget] at h
      | some recipe =>
        simp only [hget] at h
        obtain ⟨hr, -⟩ := Prod.mk.injEq .. ▸ h
        cases hr' : Option.some.injEq .. ▸ hr
        refine ⟨(processIngredients s (getRecipeIngredients s id)).2.1 +
          (processLinks s (computeAux s fuel) (getSubRecipes s id)
            (id :: stack)).2.1, ?_, ?_⟩ <;> simp

/-! ### Concrete stores used as test instances -/

/-- Conversion succeeding exactly when the declared base unit equals the
source unit (enough for same-unit lines; §6 leaves the table open). -/
def convSame : ℚ → String → Option String → Option ℚ :=
  fun q u bu => if bu = some u then some q else none

/-- A recipe with no lines at all: its running total is `0`. -/
def exRecipeA : Recipe := ⟨1, "A", 2, "portion", none, 0⟩

def exStoreA : Store := ⟨[exRecipeA], [], [], [], fun _ _ _ => none⟩

/-- Expected result for `exStoreA`: batch cost present and `0`, yet no
cost per portion. -/
def exResA : CostingResult :=
  ⟨1, "A", 2, "portion", [], [], none, none, some 0, none, []⟩

/-- A recipe with one priced line (Flour, line cost 6) and one line with
no unit price (Salt). -/
def exStoreB : Store :=
  ⟨[⟨1, "B", 2, "portion", none, 0⟩],
   [⟨1, "Flour"⟩, ⟨2, "Salt"⟩],
   [⟨1, 1, 3, "g", some "g", some 2⟩, ⟨1, 2, 1, "g", some "g", none⟩],
   [], convSame⟩

/-- Expected result for `exStoreB`: a missing cost, hence no batch
cost, yet a populated cost per portion from the partial total. -/
def exResB : CostingResult :=
  ⟨1, "B", 2, "portion",
   [⟨1, "Flour", 3, "g", 3, some "g", some 2, some 6⟩,
    ⟨2, "Salt", 1, "g", 1, some "g", none, none⟩],
   [], some 6, none, none, some 3, ["Salt"]⟩

/-! ### Claims -/

/-- C1, counterexample.  On `exStoreA` the total is `0` with nothing
missing: `total_batch_cost` is populated (`some 0`) and the yield is
positive, yet `cost_per_portion` is absent.  On `exStoreB` a cost is
missing (`total_batch_cost` absent) yet `cost_per_portion` is populated
from the partial running total.  Both contradict the claim that
`cost_per_portion` is populated iff `total_batch_cost` is populated and
the yield is positive. -/
theorem C1_counterexample :
    (calculate_recipe_cost exStoreA 1 0 20 []).1 = some exResA ∧
    exResA.total_batch_cost = some 0 ∧ 0 < exResA.yield_quantity ∧
    exResA.cost_per_portion = none ∧
    (calculate_recipe_cost exStoreB 1 0 20 []).1 = some exResB ∧
    exResB.missing_costs ≠ [] ∧ exResB.total_batch_cost = none ∧
    exResB.cost_per_portion = some 3 := by with_unfolding_all decide

/-- C1, amended: `cost_per_portion` is populated iff the running total
(the sum of all resolved line costs, ignoring missing ones) is strictly
positive and the yield quantity is strictly positive, and then equals
that total divided by the yield quantity; `total_batch_cost`, when
populated, equals that same total, so a populated strictly positive
`total_batch_cost` with positive yield does give `cost_per_portion =
total_batch_cost / yield_quantity`, and a non-positive yield gives no
`cost_per_portion` — but a populated `total_batch_cost` of `0` gives no
`cost_per_portion`, and a result with non-empty `missing_costs` can
still have `cost_per_portion` populated from the partial total. -/
theorem C1_cost_per_portion_rule (s : Store) (fuel id : ℕ)
    (stack st : List ℕ) (r : CostingResult)
    (h : computeAux s fuel id stack = (some r, st)) :
    ∃ total : ℚ,
      r.total_batch_cost = (if r.missing_costs = [] then some total else none) ∧
      r.cost_per_portion =
        (if 0 < total ∧ 0 < r.yield_quantity then
          some (total / r.yield_quantity) else none) ∧
      (r.yield_quantity ≤ 0 → r.cost_per_portion = none) ∧
      (∀ t : ℚ, r.total_batch_cost = some t → 0 < t → 0 < r.yield_quantity →
        r.cost_per_portion = some (t / r.yield_quantity)) := by
  obtain ⟨total, h1, h2⟩ := computeAux_some_spec h
  refine ⟨total, h1, h2, ?_, ?_⟩
  · intro hy
    rw [h2]
    have hne : ¬(0 < total ∧ 0 < r.yield_quantity) :=
      fun hc => absurd hc.2 (not_lt.mpr hy)
    simp [hne]
  · intro t ht hpos hy
    by_cases hm : r.missing_costs = []
    · rw [h1, if_pos hm] at ht
      obtain rfl : total = t := Option.some.inj ht
      rw [h2, if_pos ⟨hpos, hy⟩]
    · rw [h1, if_neg hm] at ht
      exact absurd ht (by simp)

/-- C1, witness: the amended rule instantiated on `exStoreA`. -/
theorem C1_witness :
    ∃ total : ℚ,
      exResA.total_batch_cost =
        (if exResA.missing_costs = [] then some total else none) ∧
      exResA.cost_per_portion =
        (if 0 < total ∧ 0 < exResA.yield_quantity then
          some (total / exResA.yield_quantity) else none) ∧
      (exResA.yield_quantity ≤ 0 → exResA.cost_per_portion = none) ∧
      (∀ t : ℚ, exResA.total_batch_cost = some t → 0 < t →
        0 < exResA.yield_quantity →
        exResA.cost_per_portion = some (t / exResA.yield_quantity)) :=
  C1_cost_per_portion_rule exStoreA 20 1 [] [] exResA (by with_unfolding_all decide)

/-- C2: a computed result's `total_batch_cost` is present iff its
`missing_costs` list is empty (lines 195–207); present even when the
total is `0`, absent as soon as any line was indeterminate. -/
theorem C2_total_batch_cost_iff_missing_empty (s : Store) (fuel id : ℕ)
    (stack st : List ℕ) (r : CostingResult)
    (h : computeAux s fuel id stack = (some r, st)) :
    r.total_batch_cost.isSome ↔ r.missing_costs = [] := by
  obtain ⟨total, h1, -⟩ := computeAux_some_spec h
  rw [h1]
  by_cases hm : r.missing_costs = [] <;> simp [hm]

/-- C2, witness: the invariant instantiated on `exStoreA`, whose total
is exactly `0` and still populated. -/
theorem C2_witness :
    (exResA.total_batch_cost.isSome ↔ exResA.missing_costs = []) ∧
    exResA.total_batch_cost = some 0 :=
  ⟨C2_total_batch_cost_iff_missing_empty exStoreA 20 1 [] [] exResA (by with_unfolding_all decide),
   by decide⟩

/-- Guard-free unfolding: with budget left and no cycle, a missing
top-level recipe returns `none` and restores the stack. -/
theorem computeAux_succ_not_found (s : Store) (fuel id : ℕ) (stack : List ℕ)
    (hmem : id ∉ stack) (h : getRecipe s id = none) :
    computeAux s (fuel + 1) id stack = (none, stack) := by
  simp [computeAux, hmem, h, List.erase_cons_head]

/-- With budget left, the result is `none` exactly when the cycle guard
fires or the recipe is absent. -/
theorem computeAux_succ_none_iff (s : Store) (fuel id : ℕ) (stack : List ℕ) :
    (computeAux s (fuel + 1) id stack).1 = none ↔
      id ∈ stack ∨ getRecipe s id = none := by
  by_cases hmem : id ∈ stack
  · simp [computeAux, hmem]
  · cases h : getRecipe s id <;> simp [computeAux, hmem, h]

/-- The recipe returned by a successful lookup carries the looked-up id. -/
theorem getRecipe_id {s : Store} {id : ℕ} {r : Recipe}
    (h : getRecipe s id = some r) : r.id = id := by
  unfold getRecipe at h
  simpa using List.find?_some h

/-- List form of the update-then-lookup round trip. -/
theorem find?_map_update (id : ℕ) (r' : Recipe) (hid : r'.id = id) :
    ∀ l : List Recipe, (l.find? (fun r => r.id = id)).isSome →
      (l.map (fun x => if x.id = r'.id then r' else x)).find?
        (fun r => r.id = id) = some r' := by
  intro l
  induction l with
  | nil => intro h; simp at h
  | cons a l ih =>
    intro h
    by_cases ha : a.id = id
    · have ha' : a.id = r'.id := by rw [hid, ha]
      simp [List.find?, ha', hid]
    · have ha' : ¬ a.id = r'.id := by rw [hid]; exact ha
      simp only [List.map, List.find?, ha', if_false, ite_false,
        decide_eq_true_eq, ha] at h ⊢
      exact ih h

/-- Replacing the row with the matching id makes the subsequent lookup
return the replacement. -/
theorem getRecipe_updateRecipe (s : Store) (id : ℕ) (r' : Recipe)
    (h : (getRecipe s id).isSome) (hid : r'.id = id) :
    getRecipe (updateRecipe s r') id = some r' :=
  find?_map_update id r' hid s.recipes h

/-- C3, counterexample store: recipe 1 has a stale cached cost (`9`)
and timestamp `0`; its costing resolves with no `cost_per_portion`
(total `0`). -/
def exStoreC : Store := ⟨[⟨1, "A", 2, "portion", some 9, 0⟩], [], [], [], fun _ _ _ => none⟩

/-- The recipe row after `persist_cost_snapshot exStoreC 1 5`: cache
overwritten with `none`, timestamp bumped. -/
def exRecipeC' : Recipe := ⟨1, "A", 2, "portion", none, 5⟩

/-- C3, counterexample.  The costing of recipe 1 in `exStoreC` has no
resolvable `cost_per_portion`, yet `persist_cost_snapshot` does write:
it returns the updated row and the store now holds it — the stale
cached cost `9` is clobbered to `none` and the timestamp changes from
`0` to `5`, contradicting the claimed "no write performed". -/
theorem C3_counterexample :
    (calculate_recipe_cost exStoreC 1 0 20 []).1.map CostingResult.cost_per_portion
      = some none ∧
    getRecipe exStoreC 1 = some ⟨1, "A", 2, "portion", some 9, 0⟩ ∧
    (persist_cost_snapshot exStoreC 1 5).1 = some exRecipeC' ∧
    getRecipe (persist_cost_snapshot exStoreC 1 5).2 1 = some exRecipeC' ∧
    exRecipeC'.cost_price = none ∧ exRecipeC'.updated_at = 5 := by
  with_unfolding_all decide

/-- C3, amended: no write happens only when the recipe is not found
(directly, or through the costing call returning nothing); whenever the
costing call returns a result — even one with no resolvable
`cost_per_portion` — the cached cost is overwritten with that possibly
absent value, the timestamp is set, and the change is persisted. -/
theorem C3_persist_rule (s : Store) (id now : ℕ) (costing : CostingResult)
    (recipe : Recipe)
    (hc : (calculate_recipe_cost s id 0 20 []).1 = some costing)
    (hr : getRecipe s id = some recipe) :
    (∀ s' : Store, getRecipe s' id = none →
      persist_cost_snapshot s' id now = (none, s')) ∧
    (persist_cost_snapshot s id now).1 =
      some { recipe with cost_price := costing.cost_per_portion,
                         updated_at := now } ∧
    getRecipe (persist_cost_snapshot s id now).2 id =
      some { recipe with cost_price := costing.cost_per_portion,
                         updated_at := now } := by
  refine ⟨?_, ?_⟩
  · intro s' h
    have hnone : (calculate_recipe_cost s' id 0 20 []).1 = none := by
      show (computeAux s' (20 - 0) id []).1 = none
      rw [show (20 - 0 : ℕ) = 19 + 1 from rfl,
        computeAux_succ_not_found s' 19 id [] (by simp) h]
    unfold persist_cost_snapshot
    rw [hnone]
  · unfold persist_cost_snapshot
    rw [hc, hr]
    refine ⟨rfl, ?_⟩
    exact getRecipe_updateRecipe s id _ (by rw [hr]; rfl)
      (by simpa using getRecipe_id hr)

/-- C3, witness: the amended rule instantiated on `exStoreC`. -/
theorem C3_witness :
    (∀ s' : Store, getRecipe s' 1 = none →
      persist_cost_snapshot s' 1 5 = (none, s')) ∧
    (persist_cost_snapshot exStoreC 1 5).1 = some exRecipeC' ∧
    getRecipe (persist_cost_snapshot exStoreC 1 5).2 1 = some exRecipeC' :=
  C3_persist_rule exStoreC 1 5 exResA ⟨1, "A", 2, "portion", some 9, 0⟩
    (by with_unfolding_all decide) (by with_unfolding_all decide)

/-- A link requesting 3 batches of the child. -/
def exLinkBatch : RecipeRecipe := ⟨1, 1, 2, 3, "batch", 0⟩

def exChildC : Recipe := ⟨2, "C", 1, "portion", none, 0⟩

/-- C4, counterexample.  The child's batch cost is known (`10`), the
unit is `batch`, so the claim demands line cost `3 × 10 = 30`; but
because the child's portion cost — unused by the batch formula — is
absent, the code returns indeterminate (`calculateSubRecipeLineCost`
rejects any absent input at line 51 before dispatching on the unit). -/
theorem C4_counterexample :
    calculateSubRecipeLineCost exLinkBatch (some 10) none exChildC = none ∧
    exLinkBatch.unit = "batch" ∧
    exLinkBatch.quantity * 10 = 30 := by
  with_unfolding_all decide

/-- C4, amended: for a `batch` link the line cost is
`quantity × child_batch_cost` when **both** the child's batch cost and
its portion cost are known; it is indeterminate whenever either is
absent — in particular an absent portion cost makes the line
indeterminate even though the batch formula never uses it. -/
theorem C4_batch_rule (rr : RecipeRecipe) (child : Recipe) (bc pc : ℚ)
    (b p : Option ℚ) (h : rr.unit = "batch") :
    calculateSubRecipeLineCost rr (some bc) (some pc) child =
      some (rr.quantity * bc) ∧
    calculateSubRecipeLineCost rr b none child = none ∧
    calculateSubRecipeLineCost rr none p child = none := by
  refine ⟨?_, ?_, ?_⟩
  · simp [calculateSubRecipeLineCost, h]
  · cases b <;> rfl
  · cases p <;> rfl

/-- C4, witness: the amended rule instantiated on `exLinkBatch`. -/
theorem C4_witness :
    calculateSubRecipeLineCost exLinkBatch (some 10) (some 7) exChildC =
      some (exLinkBatch.quantity * 10) ∧
    calculateSubRecipeLineCost exLinkBatch (some 10) none exChildC = none ∧
    calculateSubRecipeLineCost exLinkBatch none (some 7) exChildC = none :=
  C4_batch_rule exLinkBatch exChildC 10 7 (some 10) (some 7)
    (by with_unfolding_all decide)

/-- C5: for a `g` or `ml` link with both child costs known, the line
cost is `(quantity / child_yield_quantity) × child_batch_cost` when the
child's yield quantity is strictly positive, and indeterminate (never
zero) otherwise (lines 61–72). -/
theorem C5_gml_rule (rr : RecipeRecipe) (child : Recipe) (bc pc : ℚ)
    (h : rr.unit = "g" ∨ rr.unit = "ml") :
    calculateSubRecipeLineCost rr (some bc) (some pc) child =
      (if 0 < child.yield_quantity then
        some (rr.quantity / child.yield_quantity * bc) else none) := by
  rcases h with h | h <;> simp [calculateSubRecipeLineCost, h]

/-- A link requesting 50 g of a child that yields 500. -/
def exLinkG : RecipeRecipe := ⟨3, 1, 2, 50, "g", 1⟩

def exChildY : Recipe := ⟨2, "Y", 500, "ml", none, 0⟩

/-- C5, witness: the rule instantiated on `exLinkG` (yield `500 > 0`,
so the cost is `50 / 500 × 20 = 2`). -/
theorem C5_witness :
    calculateSubRecipeLineCost exLinkG (some 20) (some 7) exChildY =
      (if 0 < exChildY.yield_quantity then
        some (exLinkG.quantity / exChildY.yield_quantity * 20) else none) ∧
    calculateSubRecipeLineCost exLinkG (some 20) (some 7) exChildY = some 2 :=
  ⟨C5_gml_rule exLinkG exChildY 20 7 (Or.inl (by with_unfolding_all decide)),
   by with_unfolding_all decide⟩

/-- Two recipes whose links form the cycle A→B→A. -/
def cycStore : Store :=
  ⟨[⟨1, "A", 1, "portion", none, 0⟩, ⟨2, "B", 1, "portion", none, 0⟩],
   [], [],
   [⟨1, 1, 2, 1, "batch", 0⟩, ⟨2, 2, 1, 1, "batch", 0⟩],
   fun _ _ _ => none⟩

/-- A recipe that lists itself as a sub-recipe. -/
def selfStore : Store :=
  ⟨[⟨1, "S", 1, "portion", none, 0⟩], [], [],
   [⟨1, 1, 1, 1, "batch", 0⟩], fun _ _ _ => none⟩

/-- A strictly linear chain R1→R2→…→R8 of length `max_depth + 5` for
`max_depth = 3`. -/
def chainStore : Store :=
  ⟨[⟨1, "R1", 1, "portion", none, 0⟩, ⟨2, "R2", 1, "portion", none, 0⟩,
    ⟨3, "R3", 1, "portion", none, 0⟩, ⟨4, "R4", 1, "portion", none, 0⟩,
    ⟨5, "R5", 1, "portion", none, 0⟩, ⟨6, "R6", 1, "portion", none, 0⟩,
    ⟨7, "R7", 1, "portion", none, 0⟩, ⟨8, "R8", 1, "portion", none, 0⟩],
   [], [],
   [⟨1, 1, 2, 1, "batch", 0⟩, ⟨2, 2, 3, 1, "batch", 0⟩,
    ⟨3, 3, 4, 1, "batch", 0⟩, ⟨4, 4, 5, 1, "batch", 0⟩,
    ⟨5, 5, 6, 1, "batch", 0⟩, ⟨6, 6, 7, 1, "batch", 0⟩,
    ⟨7, 7, 8, 1, "batch", 0⟩],
   fun _ _ _ => none⟩

/-- C6: the two recursion guards return "no result" instead of
recursing — a call at `depth ≥ max_depth` and a call whose recipe id is
already on the active path both yield `none` with the stack untouched —
and on the concrete cyclic, self-referential, and
`max_depth + 5`-long-chain stores the computation returns (it is a total
function) with the revisited or cut-off child recorded as an
indeterminate entry in `missing_costs`. -/
theorem C6_termination (s : Store) (id depth max_depth fuel : ℕ)
    (stack : List ℕ) (hd : max_depth ≤ depth) (hs : id ∈ stack) :
    calculate_recipe_cost s id depth max_depth stack = (none, stack) ∧
    computeAux s fuel id stack = (none, stack) ∧
    (calculate_recipe_cost cycStore 1 0 20 []).1.map CostingResult.missing_costs
      = some ["[Sub-recipe: B]"] ∧
    (calculate_recipe_cost selfStore 1 0 20 []).1.map CostingResult.missing_costs
      = some ["[Sub-recipe: S]"] ∧
    (calculate_recipe_cost chainStore 1 0 3 []).1.map CostingResult.missing_costs
      = some ["[Sub-recipe: R2]"] := by
  refine ⟨?_, ?_, ?_, ?_, ?_⟩
  · show computeAux s (max_depth - depth) id stack = (none, stack)
    rw [Nat.sub_eq_zero_of_le hd]
    rfl
  · cases fuel with
    | zero => rfl
    | succ fuel => simp [computeAux, hs]
  · with_unfolding_all decide
  · with_unfolding_all decide
  · with_unfolding_all decide

/-- C6, witness: both guards fired at concrete arguments. -/
theorem C6_witness :
    calculate_recipe_cost exStoreA 7 5 3 [7] = (none, [7]) ∧
    computeAux exStoreA 4 7 [7] = (none, [7]) ∧
    (calculate_recipe_cost cycStore 1 0 20 []).1.map CostingResult.missing_costs
      = some ["[Sub-recipe: B]"] ∧
    (calculate_recipe_cost selfStore 1 0 20 []).1.map CostingResult.missing_costs
      = some ["[Sub-recipe: S]"] ∧
    (calculate_recipe_cost chainStore 1 0 3 []).1.map CostingResult.missing_costs
      = some ["[Sub-recipe: R2]"] :=
  C6_termination exStoreA 7 5 3 4 [7]
    (by with_unfolding_all decide) (by with_unfolding_all decide)

/-- Parent 1 has a dangling link to the absent recipe 99 followed by a
valid link to recipe 2, which itself has one priced line (cost 4). -/
def dangStore7 : Store :=
  ⟨[⟨1, "P", 1, "portion", none, 0⟩, ⟨2, "B", 1, "portion", none, 0⟩],
   [⟨1, "X"⟩],
   [⟨2, 1, 4, "g", some "g", some 1⟩],
   [⟨1, 1, 99, 1, "batch", 0⟩, ⟨2, 1, 2, 1, "batch", 0⟩],
   convSame⟩

/-- Expected result for `dangStore7`: the dangling child is recorded as
`"[Sub-recipe 99]"` and skipped, and the later valid link is still
processed (one sub-recipe breakdown item, line cost 4). -/
def exRes7 : CostingResult :=
  ⟨1, "P", 1, "portion", [],
   [⟨2, 2, "B", 1, "batch", some 4, some 4, some 4⟩],
   none, some 4, none, some 4, ["[Sub-recipe 99]"]⟩

/-- C7: a top-level call (depth 0, empty guard set) returns `none` iff
the requested recipe is absent from the store; an absent *child* never
aborts the parent — the loop records `"[Sub-recipe <child_id>]"`, emits
no breakdown item for that link, and processes the remaining links
unchanged, as witnessed concretely by `dangStore7`. -/
theorem C7_not_found (s : Store) (id : ℕ)
    (rec : ℕ → List ℕ → Option CostingResult × List ℕ) (rr : RecipeRecipe)
    (rest : List RecipeRecipe) (stack : List ℕ)
    (h : getRecipe s rr.child_recipe_id = none) :
    ((calculate_recipe_cost s id 0 20 []).1 = none ↔ getRecipe s id = none) ∧
    processLinks s rec (rr :: rest) stack =
      ((processLinks s rec rest stack).1,
       (processLinks s rec rest stack).2.1,
       ("[Sub-recipe " ++ toString rr.child_recipe_id ++ "]") ::
         (processLinks s rec rest stack).2.2.1,
       (processLinks s rec rest stack).2.2.2) ∧
    (calculate_recipe_cost dangStore7 1 0 20 []).1 = some exRes7 := by
  refine ⟨?_, ?_, ?_⟩
  · show (computeAux s (20 - 0) id []).1 = none ↔ _
    rw [show (20 - 0 : ℕ) = 19 + 1 from rfl, computeAux_succ_none_iff]
    simp
  · simp [processLinks, h]
  · with_unfolding_all decide

/-- C7, witness: instantiated on `dangStore7` and its dangling link. -/
theorem C7_witness :
    ((calculate_recipe_cost dangStore7 1 0 20 []).1 = none ↔
      getRecipe dangStore7 1 = none) ∧
    processLinks dangStore7 (computeAux dangStore7 19)
        (⟨1, 1, 99, 1, "batch", 0⟩ :: [⟨2, 1, 2, 1, "batch", 0⟩]) [1] =
      ((processLinks dangStore7 (computeAux dangStore7 19)
          [⟨2, 1, 2, 1, "batch", 0⟩] [1]).1,
       (processLinks dangStore7 (computeAux dangStore7 19)
          [⟨2, 1, 2, 1, "batch", 0⟩] [1]).2.1,
       ("[Sub-recipe " ++ toString (99 : ℕ) ++ "]") ::
         (processLinks dangStore7 (computeAux dangStore7 19)
            [⟨2, 1, 2, 1, "batch", 0⟩] [1]).2.2.1,
       (processLinks dangStore7 (computeAux dangStore7 19)
          [⟨2, 1, 2, 1, "batch", 0⟩] [1]).2.2.2) ∧
    (calculate_recipe_cost dangStore7 1 0 20 []).1 = some exRes7 :=
  C7_not_found dangStore7 1 (computeAux dangStore7 19) ⟨1, 1, 99, 1, "batch", 0⟩
    [⟨2, 1, 2, 1, "batch", 0⟩] [1] (by with_unfolding_all decide)

/-- C8: the engine is a pure function of the store's state.  Every call
— whatever exit path it takes — returns the guard stack exactly as it
received it, so repeating a top-level computation with the guard state
left by the first call yields the identical `CostingResult` (and in the
state-free reading, two calls on an unchanged store are the same
expression, hence equal). -/
theorem C8_purity (s : Store) (fuel id depth max_depth : ℕ)
    (stack : List ℕ) :
    (computeAux s fuel id stack).2 = stack ∧
    calculate_recipe_cost s id depth max_depth
        ((calculate_recipe_cost s id depth max_depth stack).2) =
      calculate_recipe_cost s id depth max_depth stack := by
  refine ⟨computeAux_stack s fuel id stack, ?_⟩
  unfold calculate_recipe_cost
  rw [computeAux_stack]

/-- Conversion that always reports a converted quantity of `0`. -/
def zStore9 : Store :=
  ⟨[⟨1, "Z", 1, "portion", none, 0⟩], [⟨1, "Air"⟩],
   [⟨1, 1, 5, "g", some "g", some 2⟩], [], fun _ _ _ => some 0⟩

/-- The breakdown item `zStore9` produces: conversion succeeded with
`0`, yet the recorded quantity-in-base-units is the original `5`. -/
def exItem9 : CostBreakdownItem := ⟨1, "Air", 5, "g", 5, some "g", some 2, some 0⟩

/-- C9, counterexample.  In `zStore9` the conversion succeeds and
legitimately returns `0` for the 5 g line, but the emitted
`CostBreakdownItem` records `quantity_in_base_unit = 5` — the original
quantity — because the code's `quantity_in_base or ri.quantity` treats
the converted `0` like a failure.  The claim that a successful
conversion's value is always recorded, including an exact `0`, is
false. -/
theorem C9_counterexample :
    zStore9.convert 5 "g" (some "g") = some 0 ∧
    (calculate_recipe_cost zStore9 1 0 20 []).1.map CostingResult.breakdown
      = some [exItem9] ∧
    exItem9.quantity_in_base_unit = 5 ∧ (5 : ℚ) ≠ 0 := by
  with_unfolding_all decide

/-- C9, amended: the recorded quantity-in-base-units equals the
converted quantity when conversion succeeds with a **non-zero** value;
it falls back to the original quantity both when conversion fails and
when the converted value is exactly `0` (the code cannot distinguish a
legitimate zero result from a failure). -/
theorem C9_quantity_in_base_rule (s s0 sN : Store) (ri : RecipeIngredient)
    (ing : Ingredient) (v : ℚ)
    (hv : s.convert ri.quantity ri.unit ri.base_unit = some v) (hnz : v ≠ 0)
    (h0 : s0.convert ri.quantity ri.unit ri.base_unit = some 0)
    (hN : sN.convert ri.quantity ri.unit ri.base_unit = none) :
    (mkBreakdownItem s ri ing).quantity_in_base_unit = v ∧
    (mkBreakdownItem s0 ri ing).quantity_in_base_unit = ri.quantity ∧
    (mkBreakdownItem sN ri ing).quantity_in_base_unit = ri.quantity := by
  refine ⟨?_, ?_, ?_⟩ <;> simp [mkBreakdownItem, hv, h0, hN, hnz]

/-- C9, witness: the amended rule instantiated on a successful non-zero
conversion (`exStoreB`), a successful zero conversion (`zStore9`), and
a failing conversion (`exStoreA`). -/
theorem C9_witness :
    (mkBreakdownItem exStoreB ⟨1, 1, 3, "g", some "g", some 2⟩ ⟨1, "Flour"⟩).quantity_in_base_unit = 3 ∧
    (mkBreakdownItem zStore9 ⟨1, 1, 3, "g", some "g", some 2⟩ ⟨1, "Flour"⟩).quantity_in_base_unit = 3 ∧
    (mkBreakdownItem exStoreA ⟨1, 1, 3, "g", some "g", some 2⟩ ⟨1, "Flour"⟩).quantity_in_base_unit = 3 :=
  C9_quantity_in_base_rule exStoreB zStore9 exStoreA
    ⟨1, 1, 3, "g", some "g", some 2⟩ ⟨1, "Flour"⟩ 3
    (by with_unfolding_all decide) (by with_unfolding_all decide)
    (by with_unfolding_all decide) (by with_unfolding_all decide)

/-- Recipe 1 has a line referencing the absent ingredient 99 followed
by a priced Flour line. -/
def dangStore10 : Store :=
  ⟨[⟨1, "D", 1, "portion", none, 0⟩], [⟨1, "Flour"⟩],
   [⟨1, 99, 1, "g", some "g", some 1⟩, ⟨1, 1, 2, "g", some "g", some 3⟩],
   [], convSame⟩

/-- Expected result for `dangStore10`: the dangling line vanishes — no
breakdown item, no missing entry, no cost — and `total_batch_cost` is
still populated from the remaining line alone. -/
def exRes10 : CostingResult :=
  ⟨1, "D", 1, "portion", [⟨1, "Flour", 2, "g", 2, some "g", some 3, some 6⟩],
   [], some 6, none, some 6, some 6, []⟩

/-- C10: a line whose ingredient record does not exist is silently
skipped — the loop's output on `ri :: rest` equals its output on `rest`
alone (no breakdown item, no missing-cost entry, no contribution) — so
a recipe with such a dangling line can still report a populated
`total_batch_cost`, as `dangStore10` does. -/
theorem C10_dangling_ingredient (s : Store) (ri : RecipeIngredient)
    (rest : List RecipeIngredient)
    (h : getIngredient s ri.ingredient_id = none) :
    processIngredients s (ri :: rest) = processIngredients s rest ∧
    (calculate_recipe_cost dangStore10 1 0 20 []).1 = some exRes10 ∧
    exRes10.total_batch_cost = some 6 ∧ exRes10.missing_costs = [] := by
  refine ⟨?_, ?_, ?_, ?_⟩
  · simp [processIngredients, h]
  · with_unfolding_all decide
  · with_unfolding_all decide
  · with_unfolding_all decide

/-- C10, witness: instantiated on `dangStore10`'s dangling line. -/
theorem C10_witness :
    processIngredients dangStore10
        (⟨1, 99, 1, "g", some "g", some 1⟩ ::
          [⟨1, 1, 2, "g", some "g", some 3⟩]) =
      processIngredients dangStore10 [⟨1, 1, 2, "g", some "g", some 3⟩] ∧
    (calculate_recipe_cost dangStore10 1 0 20 []).1 = some exRes10 ∧
    exRes10.total_batch_cost = some 6 ∧ exRes10.missing_costs = [] :=
  C10_dangling_ingredient dangStore10 ⟨1, 99, 1, "g", some "g", some 1⟩
    [⟨1, 1, 2, "g", some "g", some 3⟩] (by with_unfolding_all decide)

end Costing
